import Mathlib

/-!
Shallow embedding of the VarianceIQ analysis core (src/analysis_agent.py).

Numeric cells are modelled as rationals.  The value of the variance_pct
column, produced by an unguarded float division, is modelled by FloatVal,
which keeps the IEEE special values that the division can produce
(positive and negative infinity, NaN).  pd.to_numeric with coerce errors
is modelled by giving each raw row budget and actual fields of type
Option Rat: some q when the cell parses as a number, none when it does
not (the coerced NaN).
-/

namespace VarianceIQ

/-- Result of a float division: a finite rational, an infinity, or NaN. -/
inductive FloatVal where
  | fin (q : ℚ)
  | pinf
  | ninf
  | nan
deriving DecidableEq, Repr

/-- Float division of two finite values, as numpy performs it inside
np.errstate(divide="ignore", invalid="ignore"): x / 0 is +inf for x > 0,
-inf for x < 0, and NaN for x = 0. -/
def fdiv (a b : ℚ) : FloatVal :=
  if b = 0 then
    if 0 < a then .pinf else if a < 0 then .ninf else .nan
  else .fin (a / b)

/-- Absolute value on float values: Series.abs. -/
def FloatVal.fabs : FloatVal → FloatVal
  | .fin q => .fin |q|
  | .pinf => .pinf
  | .ninf => .pinf
  | .nan => .nan

/-- Comparison (v >= t) against a finite threshold, as numpy evaluates it:
any comparison with NaN is False, +inf >= t is True. The fillna(False)
of the source is subsumed: NaN already compares False. -/
def FloatVal.fge : FloatVal → ℚ → Bool
  | .fin q, t => decide (t ≤ q)
  | .pinf, _ => true
  | .ninf, _ => false
  | .nan, _ => false

/-- pd.notna: False exactly on NaN; infinities are not NA. -/
def FloatVal.notna : FloatVal → Bool
  | .nan => false
  | _ => true

/-- str(cell) applied to a possibly-null string cell: a missing cell is
the float NaN in pandas, and str(nan) is the string "nan". -/
def cellStr : Option String → String
  | some s => s
  | none => "nan"

/-- AnalysisConfig of the source: column bindings and the two
materiality thresholds. -/
structure AnalysisConfig where
  department_col : String := "department"
  account_col : String := "account"
  budget_col : String := "budget"
  actual_col : String := "actual"
  period_col : Option String := some "period"
  materiality_threshold_abs : ℚ := 10000
  materiality_threshold_pct : ℚ := 5 / 100
deriving Repr, DecidableEq

/-- One raw input row, after the pd.to_numeric coercion of the budget and
actual cells: none models a cell that did not parse (coerced to NaN).
The department cell is Option String because an empty group-key cell in
the uploaded file is NaN in pandas: such a row is never dropped by
cleaning, yet groupby (default dropna=True) excludes it from every
aggregate. -/
structure RawRow where
  department : Option String
  account : String
  period : Option String
  budget : Option ℚ
  actual : Option ℚ
deriving Repr, DecidableEq

/-- The input table: its column names (the schema) and its rows. -/
structure DataFrame where
  cols : List String
  rows : List RawRow
deriving Repr, DecidableEq

/-- A row that survived dropna on the coerced budget and actual columns;
its department cell can still be null (NaN in the frame). -/
structure CleanRow where
  department : Option String
  account : String
  period : Option String
  budget : ℚ
  actual : ℚ
deriving Repr, DecidableEq

/-- One emitted line item (dataclass LineItemVariance). The variance_pct
field of the source is Optional[float]; the pd.notna guard turns NaN into
None but passes infinities through, so the model keeps FloatVal there. -/
structure LineItemVariance where
  department : String
  account : String
  period : Option String
  budget : ℚ
  actual : ℚ
  variance : ℚ
  variance_pct : Option FloatVal
  direction : String
  material : Bool
  drivers : List String
deriving Repr, DecidableEq

/-- One emitted aggregate (dataclass AggregateVariance). -/
structure AggregateVariance where
  department : String
  budget_total : ℚ
  actual_total : ℚ
  variance_total : ℚ
  variance_pct_total : Option ℚ
deriving Repr, DecidableEq

/-- The summary returned by run (dataclass AnalysisSummary, with the
metadata dictionary flattened into named fields). -/
structure AnalysisSummary where
  row_count : ℕ
  materiality_abs : ℚ
  materiality_pct : ℚ
  aggregate : List AggregateVariance
  line_items : List LineItemVariance
deriving Repr, DecidableEq

/-- The four required column names, as the source builds the required
set in _validate_and_prepare. -/
def requiredCols (c : AnalysisConfig) : List String :=
  [c.department_col, c.account_col, c.budget_col, c.actual_col]

/-- required - set(df.columns): the required names absent from the
schema, deduplicated as a set. -/
def missingCols (c : AnalysisConfig) (df : DataFrame) : List String :=
  ((requiredCols c).filter (fun n => decide (n ∉ df.cols))).dedup

/-- dropna(subset=[budget_col, actual_col]): keep exactly the rows whose
budget and actual both coerced to a number. -/
def cleanRows (rows : List RawRow) : List CleanRow :=
  rows.filterMap (fun r =>
    match r.budget, r.actual with
    | some b, some a => some ⟨r.department, r.account, r.period, b, a⟩
    | _, _ => none)

/-- _validate_and_prepare: raise ValueError on missing required columns,
otherwise coerce and drop. -/
def validateAndPrepare (c : AnalysisConfig) (df : DataFrame) :
    Except (List String) (List CleanRow) :=
  if (missingCols c df).isEmpty then .ok (cleanRows df.rows)
  else .error (missingCols c df)

/-- variance = actual - budget (_compute_variances). -/
def variance (r : CleanRow) : ℚ := r.actual - r.budget

/-- variance_pct = variance / budget, the unguarded float division of
_compute_variances. -/
def variancePct (r : CleanRow) : FloatVal := fdiv (variance r) r.budget

/-- Default absolute tolerance of np.isclose; the relative term
rtol * abs(0.0) vanishes when comparing against zero. -/
def iscloseAtol : ℚ := 1 / 100000000

/-- np.isclose(v, 0.0) for a finite v. -/
def isclose0 (v : ℚ) : Bool := decide (|v| ≤ iscloseAtol)

/-- is_material_abs: abs(variance) >= materiality_threshold_abs. -/
def isMaterialAbs (c : AnalysisConfig) (r : CleanRow) : Bool :=
  decide (c.materiality_threshold_abs ≤ |variance r|)

/-- is_material_pct: (abs(variance_pct) >= materiality_threshold_pct)
with NaN comparing False (fillna(False)). -/
def isMaterialPct (c : AnalysisConfig) (r : CleanRow) : Bool :=
  (variancePct r).fabs.fge c.materiality_threshold_pct

/-- is_material = is_material_abs | is_material_pct. -/
def isMaterial (c : AnalysisConfig) (r : CleanRow) : Bool :=
  isMaterialAbs c r || isMaterialPct c r

/-- The direction classifier of _apply_materiality_and_drivers. -/
def direction (v : ℚ) : String :=
  if isclose0 v then "neutral"
  else if 0 < v then "unfavorable" else "favorable"

/-- Driver tags for one row: the per-row loop of
_apply_materiality_and_drivers. -/
def drivers (c : AnalysisConfig) (r : CleanRow) : List String :=
  let ds : List String :=
    if isMaterial c r then
      if direction (variance r) = "unfavorable" then ["overspend"]
      else if direction (variance r) = "favorable" then ["underspend"]
      else []
    else []
  if ds.isEmpty then ["baseline"] else ds

/-- One emitted line item for a cleaned row (_to_line_items body): the
pd.notna guard maps NaN to none and keeps every other value, infinities
included. -/
def mkLineItem (c : AnalysisConfig) (r : CleanRow) : LineItemVariance :=
  { department := cellStr r.department
    account := r.account
    period := r.period
    budget := r.budget
    actual := r.actual
    variance := variance r
    variance_pct :=
      match variancePct r with
      | .nan => none
      | v => some v
    direction := direction (variance r)
    material := isMaterial c r
    drivers := drivers c r }

/-- _to_line_items over the cleaned table. -/
def toLineItems (c : AnalysisConfig) (rows : List CleanRow) :
    List LineItemVariance :=
  rows.map (mkLineItem c)

/-- Sum of a projection over the rows of one department group; a group
key is always a non-null value, so a null-department row matches no
group. -/
def groupSum (rows : List CleanRow) (d : String) (f : CleanRow → ℚ) : ℚ :=
  ((rows.filter (fun r => r.department = some d)).map f).sum

/-- The aggregate record for one department (_aggregate_by_department
loop body): sums over the group, and the np.isclose zero guard on the
budget total. -/
def aggregateFor (rows : List CleanRow) (d : String) : AggregateVariance :=
  let bt := groupSum rows d (fun r => r.budget)
  let at_ := groupSum rows d (fun r => r.actual)
  let vt := groupSum rows d variance
  { department := d
    budget_total := bt
    actual_total := at_
    variance_total := vt
    variance_pct_total := if isclose0 bt then none else some (vt / bt) }

/-- _aggregate_by_department: one aggregate per distinct non-null
department value of the cleaned table. df.groupby runs with its default
dropna=True, so rows whose department cell is NaN form no group and are
excluded from every aggregate. -/
def aggregateByDepartment (rows : List CleanRow) : List AggregateVariance :=
  ((rows.filterMap (fun r => r.department)).dedup).map (aggregateFor rows)

/-- AnalysisAgent.run: validate, then assemble the summary; the schema
check is the only failure path. -/
def run (c : AnalysisConfig) (df : DataFrame) :
    Except (List String) AnalysisSummary :=
  match validateAndPrepare c df with
  | .error m => .error m
  | .ok cleaned =>
      .ok { row_count := cleaned.length
            materiality_abs := c.materiality_threshold_abs
            materiality_pct := c.materiality_threshold_pct
            aggregate := aggregateByDepartment cleaned
            line_items := toLineItems c cleaned }

/-! Shared helper lemmas. -/

lemma noMissing_iff (c : AnalysisConfig) (df : DataFrame) :
    (missingCols c df).isEmpty = true ↔ ∀ n ∈ requiredCols c, n ∈ df.cols := by
  simp [missingCols, List.isEmpty_iff, List.dedup_eq_nil, List.filter_eq_nil_iff]

lemma mem_missingCols (c : AnalysisConfig) (df : DataFrame) (n : String) :
    n ∈ missingCols c df ↔ n ∈ requiredCols c ∧ n ∉ df.cols := by
  simp [missingCols, List.mem_dedup, List.mem_filter]

lemma run_ok_of_noMissing (c : AnalysisConfig) (df : DataFrame)
    (h : (missingCols c df).isEmpty = true) :
    run c df = Except.ok
      { row_count := (cleanRows df.rows).length
        materiality_abs := c.materiality_threshold_abs
        materiality_pct := c.materiality_threshold_pct
        aggregate := aggregateByDepartment (cleanRows df.rows)
        line_items := toLineItems c (cleanRows df.rows) } := by
  unfold run validateAndPrepare
  rw [if_pos h]

lemma run_error_of_missing (c : AnalysisConfig) (df : DataFrame)
    (h : ¬ (missingCols c df).isEmpty = true) :
    run c df = Except.error (missingCols c df) := by
  unfold run validateAndPrepare
  rw [if_neg h]

lemma cleanRows_length (rows : List RawRow) :
    (cleanRows rows).length
      = (rows.filter (fun r => r.budget.isSome && r.actual.isSome)).length := by
  induction rows with
  | nil => rfl
  | cons r t ih =>
      rcases hb : r.budget with _ | b <;> rcases ha : r.actual with _ | a <;>
        simp [cleanRows, List.filterMap_cons, List.filter_cons, hb, ha] <;>
        simpa [cleanRows] using ih

lemma sum_map_variance (l : List CleanRow) :
    (l.map variance).sum
      = (l.map (fun r => r.actual)).sum - (l.map (fun r => r.budget)).sum := by
  induction l with
  | nil => simp
  | cons r t ih =>
      simp only [List.map_cons, List.sum_cons, ih, variance]
      ring

lemma aggregateFor_department (rows : List CleanRow) (d : String) :
    (aggregateFor rows d).department = d := rfl

lemma length_filter_key (l : List String) (hl : l.Nodup) (d : String) :
    (l.filter (fun k => decide (k = d))).length = if d ∈ l then 1 else 0 := by
  induction l with
  | nil => simp
  | cons a t ih =>
      rw [List.nodup_cons] at hl
      by_cases h : a = d
      · subst h
        have ht : a ∉ t := hl.1
        simp [List.filter_cons, ih hl.2, ht]
      · have hd : d ≠ a := fun hda => h hda.symm
        simp [List.filter_cons, h, ih hl.2, hd]

lemma fge_anti (v : FloatVal) {t t' : ℚ} (h : t ≤ t') (hv : v.fge t' = true) :
    v.fge t = true := by
  cases v <;> simp [FloatVal.fge] at hv ⊢
  exact le_trans h hv

lemma length_filter_map_aggregateFor (rows : List CleanRow) (ks : List String)
    (d : String) :
    ((ks.map (aggregateFor rows)).filter (fun a => decide (a.department = d))).length
      = (ks.filter (fun k => decide (k = d))).length := by
  induction ks with
  | nil => rfl
  | cons k t ih =>
      simp only [List.map_cons, List.filter_cons, aggregateFor_department]
      by_cases hk : k = d
      · simp [hk, ih]
      · simp [hk, ih]

/-! Concrete inputs used by the closed theorems and witnesses. -/

/-- The default configuration of the source. -/
def defaultConfig : AnalysisConfig := {}

/-- Thresholds of the worked example of the spec (abs = 100, pct = 0.1). -/
def exampleThresholds : AnalysisConfig :=
  { materiality_threshold_abs := 100, materiality_threshold_pct := 1 / 10 }

/-- The zero-budget row of the worked example of the spec. -/
def zeroBudgetRow : CleanRow := ⟨some "B", "y1", none, 0, 50⟩

/-- A one-row table whose budget is tiny but nonzero. -/
def tinyBudgetRows : List CleanRow := [⟨some "A", "x", none, 1 / 1000000000, 1⟩]

/-- A schema-complete table with one parseable and one unparseable row. -/
def schemaOkFrame : DataFrame :=
  { cols := ["department", "account", "budget", "actual"]
    rows := [⟨some "A", "x1", none, some 100, some 150⟩,
             ⟨some "A", "bad", none, none, some 2⟩] }

/-- A one-group table used to instantiate the aggregate theorems. -/
def aggWitnessRows : List CleanRow := [⟨some "A", "x", none, 100, 150⟩]

/-- A schema-complete table whose single row parses cleanly but has a
null (NaN) department cell. -/
def nullKeyFrame : DataFrame :=
  { cols := ["department", "account", "budget", "actual"]
    rows := [⟨none, "x", none, some 5, some 7⟩] }

/-! Claim theorems. -/

/-- C1: the failing input of the claim. On the zero-budget row of the
worked example of the spec (budget 0, actual 50), the code emits
variance_pct = +infinity: the float division produces +inf and the
pd.notna guard lets it through, while the claim requires the value to be
absent and never an infinity. -/
theorem c1_zero_budget_pct_is_infinite :
    (mkLineItem exampleThresholds zeroBudgetRow).variance_pct = some FloatVal.pinf
    ∧ (mkLineItem exampleThresholds zeroBudgetRow).budget = 0
    ∧ (mkLineItem exampleThresholds zeroBudgetRow).variance = 50 := by
  have hpct : variancePct zeroBudgetRow = FloatVal.pinf := by
    norm_num [variancePct, fdiv, variance, zeroBudgetRow]
  refine ⟨by simp [mkLineItem, hpct], rfl, ?_⟩
  norm_num [mkLineItem, variance, zeroBudgetRow]

/-- C2: the failing input of the claim. On the zero-budget row (budget 0,
actual 50) with thresholds abs = 100, pct = 0.1, the absolute test fails
(50 < 100) yet the row is marked material, because the percentage test
compares +inf >= 0.1 and fires; the claim says the percentage test never
fires on a zero-budget row. -/
theorem c2_zero_budget_material_via_pct :
    zeroBudgetRow.budget = 0
    ∧ isMaterialAbs exampleThresholds zeroBudgetRow = false
    ∧ isMaterialPct exampleThresholds zeroBudgetRow = true
    ∧ isMaterial exampleThresholds zeroBudgetRow = true := by
  have hpct : variancePct zeroBudgetRow = FloatVal.pinf := by
    norm_num [variancePct, fdiv, variance, zeroBudgetRow]
  have habs : isMaterialAbs exampleThresholds zeroBudgetRow = false := by
    norm_num [isMaterialAbs, variance, zeroBudgetRow, exampleThresholds]
  have hp : isMaterialPct exampleThresholds zeroBudgetRow = true := by
    simp [isMaterialPct, hpct, FloatVal.fabs, FloatVal.fge]
  exact ⟨rfl, habs, hp, by simp [isMaterial, habs, hp]⟩

/-- C3: once the four required columns are present, run returns a summary
for every table, whatever the row values; only schema validation can
fail. -/
theorem c3_run_total_when_schema_ok (c : AnalysisConfig) (df : DataFrame)
    (h : ∀ n ∈ requiredCols c, n ∈ df.cols) :
    ∃ s, run c df = Except.ok s :=
  ⟨_, run_ok_of_noMissing c df ((noMissing_iff c df).mpr h)⟩

/-- Witness for C3 at a concrete schema-complete table. -/
theorem c3_witness :
    (∀ n ∈ requiredCols defaultConfig, n ∈ schemaOkFrame.cols)
    ∧ ∃ s, run defaultConfig schemaOkFrame = Except.ok s :=
  ⟨by decide, c3_run_total_when_schema_ok defaultConfig schemaOkFrame (by decide)⟩

/-- C4: run fails exactly when a required column is missing; the error
lists exactly the set of missing required names (the period column is not
among them), and whether and how run fails depends only on the schema,
never on the rows. -/
theorem c4_error_iff_missing_required (c : AnalysisConfig) (df : DataFrame) :
    ((run c df).isOk = true ↔ ∀ n ∈ requiredCols c, n ∈ df.cols)
    ∧ (∀ m, run c df = Except.error m →
        m ≠ [] ∧ ∀ n, n ∈ m ↔ n ∈ requiredCols c ∧ n ∉ df.cols)
    ∧ (∀ rows2 m, run c df = Except.error m
        ↔ run c { cols := df.cols, rows := rows2 } = Except.error m) := by
  refine ⟨?_, ?_, ?_⟩
  · by_cases h : (missingCols c df).isEmpty = true
    · rw [run_ok_of_noMissing c df h]
      simpa [Except.isOk, Except.toBool] using (noMissing_iff c df).mp h
    · rw [run_error_of_missing c df h]
      simp only [Except.isOk, Except.toBool, Bool.false_eq_true, false_iff]
      exact fun hall => h ((noMissing_iff c df).mpr hall)
  · intro m hm
    by_cases h : (missingCols c df).isEmpty = true
    · rw [run_ok_of_noMissing c df h] at hm
      exact absurd hm (by simp)
    · rw [run_error_of_missing c df h] at hm
      obtain rfl : missingCols c df = m := by
        simpa using hm
      refine ⟨fun hnil => h (by simp [hnil]), fun n => ?_⟩
      exact mem_missingCols c df n
  · intro rows2 m
    have hsame : missingCols c { cols := df.cols, rows := rows2 }
        = missingCols c df := rfl
    by_cases h : (missingCols c df).isEmpty = true
    · rw [run_ok_of_noMissing c df h,
        run_ok_of_noMissing c { cols := df.cols, rows := rows2 } (hsame ▸ h)]
      simp
    · rw [run_error_of_missing c df h,
        run_error_of_missing c { cols := df.cols, rows := rows2 } (hsame ▸ h),
        hsame]

/-- C5: rows whose budget or actual did not parse are dropped without an
error, and row_count equals both the number of surviving rows and the
length of the emitted line-item sequence. -/
theorem c5_rowcount_invariant (c : AnalysisConfig) (df : DataFrame)
    (h : (missingCols c df).isEmpty = true) :
    ∃ s, run c df = Except.ok s
      ∧ s.row_count
          = (df.rows.filter (fun r => r.budget.isSome && r.actual.isSome)).length
      ∧ s.line_items.length = s.row_count := by
  refine ⟨_, run_ok_of_noMissing c df h, cleanRows_length df.rows, ?_⟩
  simp [toLineItems]

/-- Witness for C5 at a concrete table with one unparseable row. -/
theorem c5_witness :
    (missingCols defaultConfig schemaOkFrame).isEmpty = true
    ∧ ∃ s, run defaultConfig schemaOkFrame = Except.ok s
        ∧ s.row_count = (schemaOkFrame.rows.filter
            (fun r => r.budget.isSome && r.actual.isSome)).length
        ∧ s.line_items.length = s.row_count :=
  ⟨by decide, c5_rowcount_invariant defaultConfig schemaOkFrame (by decide)⟩

/-- C6 counterexample: a table whose single cleaned row has a null (NaN)
department cell. The row survives cleaning (row_count 1, one line item),
yet the aggregate sequence is empty: groupby with its default dropna=True
forms no group for a NaN key, so the cleaned row is omitted from every
aggregate, refuting the claim that no cleaned row is omitted from
aggregation. -/
theorem c6_counterexample :
    run defaultConfig nullKeyFrame = Except.ok
      { row_count := 1
        materiality_abs := 10000
        materiality_pct := 5 / 100
        aggregate := []
        line_items := [mkLineItem defaultConfig ⟨none, "x", none, 5, 7⟩] } := by
  rw [run_ok_of_noMissing defaultConfig nullKeyFrame (by decide)]
  rfl

/-- C6 amended: the aggregate sequence has exactly one entry per distinct
non-null department of the cleaned data, each entry sums budget and
actual over exactly the cleaned rows carrying that non-null department
(rows whose department cell is null belong to no aggregate), and
variance_total is actual_total - budget_total. -/
theorem c6_aggregation_partition (c : AnalysisConfig) (df : DataFrame)
    (h : (missingCols c df).isEmpty = true) :
    ∃ s, run c df = Except.ok s
      ∧ (∀ d : String,
          (s.aggregate.filter (fun a => decide (a.department = d))).length
            = if d ∈ (cleanRows df.rows).filterMap (fun r => r.department)
              then 1 else 0)
      ∧ ∀ a ∈ s.aggregate,
          a.budget_total = (((cleanRows df.rows).filter
              (fun r => decide (r.department = some a.department))).map
              (fun r => r.budget)).sum
          ∧ a.actual_total = (((cleanRows df.rows).filter
              (fun r => decide (r.department = some a.department))).map
              (fun r => r.actual)).sum
          ∧ a.variance_total = a.actual_total - a.budget_total := by
  refine ⟨_, run_ok_of_noMissing c df h, ?_, ?_⟩
  · intro d
    show ((aggregateByDepartment (cleanRows df.rows)).filter
        (fun a => decide (a.department = d))).length = _
    rw [aggregateByDepartment, length_filter_map_aggregateFor,
      length_filter_key _ (List.nodup_dedup _) d]
    simp [List.mem_dedup]
  · intro a ha
    obtain ⟨k, hk, rfl⟩ := List.mem_map.mp ha
    refine ⟨rfl, rfl, ?_⟩
    show groupSum (cleanRows df.rows) k variance = _
    simp only [aggregateFor, groupSum]
    exact sum_map_variance _

/-- Witness for the amended C6 at a concrete schema-complete table. -/
theorem c6_witness :
    (missingCols defaultConfig schemaOkFrame).isEmpty = true
    ∧ ∃ s, run defaultConfig schemaOkFrame = Except.ok s
        ∧ (∀ d : String,
            (s.aggregate.filter (fun a => decide (a.department = d))).length
              = if d ∈ (cleanRows schemaOkFrame.rows).filterMap (fun r => r.department)
                then 1 else 0)
        ∧ ∀ a ∈ s.aggregate,
            a.budget_total = (((cleanRows schemaOkFrame.rows).filter
                (fun r => decide (r.department = some a.department))).map
                (fun r => r.budget)).sum
            ∧ a.actual_total = (((cleanRows schemaOkFrame.rows).filter
                (fun r => decide (r.department = some a.department))).map
                (fun r => r.actual)).sum
            ∧ a.variance_total = a.actual_total - a.budget_total :=
  ⟨by decide, c6_aggregation_partition defaultConfig schemaOkFrame (by decide)⟩

/-- C7: a line item is classified neutral exactly when its variance lies
within the np.isclose tolerance of zero; outside the tolerance, positive
variance is unfavorable and negative variance is favorable. -/
theorem c7_direction_classification (c : AnalysisConfig) (r : CleanRow) :
    ((mkLineItem c r).direction = "neutral" ↔ |variance r| ≤ iscloseAtol)
    ∧ (iscloseAtol < |variance r| →
        (((mkLineItem c r).direction = "unfavorable" ↔ 0 < variance r)
         ∧ ((mkLineItem c r).direction = "favorable" ↔ variance r < 0))) := by
  have hd : (mkLineItem c r).direction = direction (variance r) := rfl
  have s1 : ("unfavorable" : String) = "neutral" ↔ False := by decide
  have s2 : ("favorable" : String) = "neutral" ↔ False := by decide
  have s3 : ("favorable" : String) = "unfavorable" ↔ False := by decide
  have s4 : ("unfavorable" : String) = "favorable" ↔ False := by decide
  rw [hd]
  unfold direction isclose0
  by_cases h : |variance r| ≤ iscloseAtol
  · refine ⟨by simp [h], fun h2 => absurd h (not_le.mpr h2)⟩
  · by_cases hv : 0 < variance r
    · refine ⟨by simp [h, hv, s1], fun _ => ⟨by simp [h, hv], ?_⟩⟩
      simp [h, hv, s4, not_lt_of_gt hv]
    · have hneg : variance r < 0 := by
        rcases lt_trichotomy (variance r) 0 with h0 | h0 | h0
        · exact h0
        · exact absurd (by simp [h0, iscloseAtol] : |variance r| ≤ iscloseAtol) h
        · exact absurd h0 hv
      refine ⟨by simp [h, hv, s2], fun _ => ⟨?_, by simp [h, hv, hneg]⟩⟩
      simp [h, hv, s3]

/-- Witness for C7 at a concrete row (budget 100, actual 150). -/
theorem c7_witness :
    (((mkLineItem defaultConfig ⟨some "A", "x", none, 100, 150⟩).direction = "neutral"
        ↔ |variance ⟨some "A", "x", none, 100, 150⟩| ≤ iscloseAtol)
      ∧ (iscloseAtol < |variance ⟨some "A", "x", none, 100, 150⟩| →
          (((mkLineItem defaultConfig ⟨some "A", "x", none, 100, 150⟩).direction
              = "unfavorable" ↔ 0 < variance ⟨some "A", "x", none, 100, 150⟩)
           ∧ ((mkLineItem defaultConfig ⟨some "A", "x", none, 100, 150⟩).direction
              = "favorable" ↔ variance ⟨some "A", "x", none, 100, 150⟩ < 0)))) :=
  c7_direction_classification defaultConfig ⟨some "A", "x", none, 100, 150⟩

/-- C8 counterexample: a group whose budget total is 1 / 1000000000,
nonzero, still gets an absent percentage, because the zero guard of the
aggregation uses np.isclose (absolute tolerance 1 / 100000000) rather
than an equality test; the claim says absence happens exactly at
budget_total = 0. -/
theorem c8_counterexample :
    aggregateByDepartment tinyBudgetRows
      = [{ department := "A", budget_total := 1 / 1000000000, actual_total := 1,
           variance_total := 999999999 / 1000000000, variance_pct_total := none }]
    ∧ 0 < (1 / 1000000000 : ℚ) := by
  constructor
  · have hk : (tinyBudgetRows.filterMap (fun r => r.department)).dedup = ["A"] := by
      simp [tinyBudgetRows]
    rw [aggregateByDepartment, hk]
    simp only [List.map_cons, List.map_nil]
    have hb : groupSum tinyBudgetRows "A" (fun r => r.budget) = 1 / 1000000000 := by
      norm_num [groupSum, tinyBudgetRows, List.filter_cons]
    have ha : groupSum tinyBudgetRows "A" (fun r => r.actual) = 1 := by
      norm_num [groupSum, tinyBudgetRows, List.filter_cons]
    have hv : groupSum tinyBudgetRows "A" variance = 999999999 / 1000000000 := by
      norm_num [groupSum, tinyBudgetRows, List.filter_cons, variance]
    have hz : isclose0 (1 / 1000000000 : ℚ) = true := by
      norm_num [isclose0, iscloseAtol, abs_of_nonneg]
    simp only [aggregateFor, hb, ha, hv, hz, if_true]
  · norm_num

/-- C8 amended: variance_pct_total of a group aggregate is absent exactly
when the absolute value of budget_total is within the np.isclose
tolerance of zero, and equals variance_total / budget_total otherwise. -/
theorem c8_aggregate_zero_guard (rows : List CleanRow) (a : AggregateVariance)
    (h : a ∈ aggregateByDepartment rows) :
    (a.variance_pct_total = none ↔ |a.budget_total| ≤ iscloseAtol)
    ∧ (iscloseAtol < |a.budget_total| →
        a.variance_pct_total = some (a.variance_total / a.budget_total)) := by
  obtain ⟨k, hk, rfl⟩ := List.mem_map.mp h
  simp only [aggregateFor]
  by_cases hz : |groupSum rows k (fun r => r.budget)| ≤ iscloseAtol
  · rw [if_pos (by simpa [isclose0] using hz)]
    exact ⟨by simp [hz], fun h2 => absurd hz (not_le.mpr h2)⟩
  · rw [if_neg (by simpa [isclose0] using hz)]
    exact ⟨by simp [hz], fun _ => rfl⟩

/-- Witness for the amended C8 at a concrete one-group table. -/
theorem c8_aggregate_zero_guard_witness :
    (aggregateFor aggWitnessRows "A" ∈ aggregateByDepartment aggWitnessRows)
    ∧ (((aggregateFor aggWitnessRows "A").variance_pct_total = none
        ↔ |(aggregateFor aggWitnessRows "A").budget_total| ≤ iscloseAtol)
      ∧ (iscloseAtol < |(aggregateFor aggWitnessRows "A").budget_total| →
          (aggregateFor aggWitnessRows "A").variance_pct_total
            = some ((aggregateFor aggWitnessRows "A").variance_total
                / (aggregateFor aggWitnessRows "A").budget_total))) := by
  have hmem : aggregateFor aggWitnessRows "A" ∈ aggregateByDepartment aggWitnessRows := by
    have hk : (aggWitnessRows.filterMap (fun r => r.department)).dedup = ["A"] := by
      simp [aggWitnessRows]
    rw [aggregateByDepartment, hk]
    simp
  exact ⟨hmem, c8_aggregate_zero_guard aggWitnessRows _ hmem⟩

/-- C9: the material flag is antitone in the two thresholds: lowering
neither threshold can lose materiality, raising neither can create it. -/
theorem c9_materiality_monotone (c c' : AnalysisConfig) (r : CleanRow)
    (habs : c.materiality_threshold_abs ≤ c'.materiality_threshold_abs)
    (hpct : c.materiality_threshold_pct ≤ c'.materiality_threshold_pct)
    (h : isMaterial c' r = true) : isMaterial c r = true := by
  unfold isMaterial at h ⊢
  rcases Bool.or_eq_true_iff.mp h with h1 | h1
  · refine Bool.or_eq_true_iff.mpr (Or.inl ?_)
    unfold isMaterialAbs at h1 ⊢
    exact decide_eq_true (le_trans habs (of_decide_eq_true h1))
  · refine Bool.or_eq_true_iff.mpr (Or.inr ?_)
    unfold isMaterialPct at h1 ⊢
    exact fge_anti _ hpct h1

/-- Witness for C9 at a concrete row and a concrete threshold pair. -/
theorem c9_witness :
    ((50 : ℚ) ≤ exampleThresholds.materiality_threshold_abs)
    ∧ ((1 : ℚ) / 20 ≤ exampleThresholds.materiality_threshold_pct)
    ∧ isMaterial exampleThresholds zeroBudgetRow = true
    ∧ isMaterial { exampleThresholds with
        materiality_threshold_abs := 50,
        materiality_threshold_pct := 1 / 20 } zeroBudgetRow = true := by
  have hpct : variancePct zeroBudgetRow = FloatVal.pinf := by
    norm_num [variancePct, fdiv, variance, zeroBudgetRow]
  have hm : isMaterial exampleThresholds zeroBudgetRow = true := by
    simp [isMaterial, isMaterialPct, hpct, FloatVal.fabs, FloatVal.fge]
  refine ⟨by norm_num [exampleThresholds], by norm_num [exampleThresholds], hm, ?_⟩
  exact c9_materiality_monotone _ exampleThresholds zeroBudgetRow
    (by norm_num [exampleThresholds]) (by norm_num [exampleThresholds]) hm

/-- C10: the driver list of every line item is a non-empty singleton:
overspend for a material unfavorable row, underspend for a material
favorable row, and baseline in every other case, including a material row
whose direction is neutral. -/
theorem c10_driver_tags (c : AnalysisConfig) (r : CleanRow) :
    (mkLineItem c r).drivers.length = 1
    ∧ (mkLineItem c r).drivers =
        (if isMaterial c r = true ∧ direction (variance r) = "unfavorable"
          then ["overspend"]
         else if isMaterial c r = true ∧ direction (variance r) = "favorable"
          then ["underspend"]
         else ["baseline"]) := by
  have hd : (mkLineItem c r).drivers = drivers c r := rfl
  rw [hd]
  unfold drivers
  by_cases hm : isMaterial c r = true
  · by_cases hu : direction (variance r) = "unfavorable"
    · simp [hm, hu]
    · by_cases hf : direction (variance r) = "favorable"
      · simp [hm, hu, hf]
      · simp [hm, hu, hf]
  · simp [hm]

end VarianceIQ
